import Mathlib

/-
  Verification development for the Orange Build deployment script
  (src/scripts/deploy.ts). The TypeScript code is shallowly embedded:
  each method of CloudflareDeploymentManager becomes a pure Lean
  function over explicit inputs (results of remote fetch/create calls,
  process invocations and file reads are passed in as parameters), and
  the observable effects (creation calls issued, warnings logged, file
  reads/writes, new file content) are returned explicitly.
  Text (file content, error messages) is modelled as List Char so that
  all definitions evaluate inside the kernel.
-/

abbrev Chars := List Char

/-- Substring test: containsSub s pat is true exactly when pat occurs
inside s; mirrors the JavaScript checks msg.indexOf(pat) !== -1 and
msg.includes(pat). -/
def containsSub (s pat : Chars) : Bool :=
  pat.isPrefixOf s ||
    match s with
    | [] => false
    | _ :: t => containsSub t pat

/-- JavaScript falsiness of an optional string value: undefined and the
empty string are falsy, every other string is truthy. -/
def isFalsyStr : Option String → Bool
  | none => true
  | some s => s == ""

/-- Value of a leading run of decimal digits, none when the run is empty.
Helper for the parseInt model. -/
def digitsVal (cs : Chars) : Option Nat :=
  let ds := cs.takeWhile Char.isDigit
  if ds.isEmpty then none
  else some (ds.foldl (fun a c => a * 10 + (c.toNat - 48)) 0)

/-- Model of JavaScript parseInt(s, 10): skip leading whitespace, accept
one optional sign, then read the longest decimal-digit run; the result
is NaN (here: none) when that run is empty. Trailing garbage after the
digits is ignored, exactly as in JavaScript. -/
def jsParseInt10 (s : String) : Option Int :=
  let cs := s.data.dropWhile (fun c =>
    c == ' ' || c == '\t' || c == '\n' || c == '\r')
  match cs with
  | '-' :: rest => (digitsVal rest).map (fun n => -(n : Int))
  | '+' :: rest => (digitsVal rest).map (fun n => (n : Int))
  | _ => (digitsVal cs).map (fun n => (n : Int))

/-- Error thrown by a Cloudflare SDK call: an optional HTTP status and an
optional message, matching the optional chaining error?.status and
error?.message in deploy.ts. -/
structure FetchError where
  status : Option Nat
  message : Option String
deriving DecidableEq, Repr

/-- The honest not-found rejection used when a resource is absent from the
control plane. -/
def notFoundError : FetchError :=
  { status := some 404, message := some "not found" }

/-- The re-throw condition of ensureDispatchNamespace, deploy.ts line 172:
error?.status !== 404 AND error?.message?.indexOf(\x27not found\x27) === -1.
When message is undefined the optional chain yields undefined, and
undefined === -1 is false, so the whole conjunction is false. -/
def nsRethrowCheck (e : FetchError) : Bool :=
  (e.status != some 404) &&
    (match e.message with
     | some m => !containsSub m.data "not found".data
     | none => false)

/-- Outcome of a successful ensure step for the dispatch namespace. -/
inductive NsOutcome
  | alreadyExists
  | created
deriving DecidableEq, Repr

/-- Result of ensureDispatchNamespace: either a fatal DeploymentError
message or an outcome, together with whether a creation call was issued
to the control plane. -/
structure NsResult where
  outcome : Except String NsOutcome
  createCalled : Bool
deriving Repr

/-- Embedding of ensureDispatchNamespace, deploy.ts lines 152 to 192.
Inputs: the first dispatch_namespaces entry of wrangler.jsonc (none when
the array is missing or empty), the result of the SDK get call and the
result of the SDK create call. The outer try/catch wraps any thrown
error into a fatal DeploymentError. -/
def ensureDispatchNamespace (dispatchNs : Option String)
    (fetchRes : Except FetchError Unit)
    (createRes : Except FetchError Unit) : NsResult :=
  match dispatchNs with
  | none =>
    { outcome := .error "No dispatch namespace configuration found in wrangler.jsonc"
      createCalled := false }
  | some ns =>
    match fetchRes with
    | .ok _ => { outcome := .ok .alreadyExists, createCalled := false }
    | .error e =>
      if nsRethrowCheck e then
        { outcome := .error ("Failed to ensure dispatch namespace: " ++ ns)
          createCalled := false }
      else
        match createRes with
        | .ok _ => { outcome := .ok .created, createCalled := true }
        | .error _ =>
          { outcome := .error ("Failed to ensure dispatch namespace: " ++ ns)
            createCalled := true }

/-- The continue-despite-error condition of ensureAIGateway, deploy.ts
line 224: error?.status !== 404 AND NOT error?.message?.includes(\x27not
found\x27). Unlike the namespace check, an absent message here makes the
negated optional chain true, so the warn-and-return branch is taken. -/
def gwCheckFailNonNotFound (e : FetchError) : Bool :=
  (e.status != some 404) &&
    (match e.message with
     | some m => !containsSub m.data "not found".data
     | none => true)

/-- The placeholder literal recognised in deploy.ts line 305. -/
def placeholderGatewayToken : String := "optional-your-cf-ai-gateway-token"

/-- Result of ensureAIGatewayToken: the token available afterwards (none
when issuance failed), whether a token-issuance request was made to the
control plane, and whether a warning was logged. -/
structure TokenResult where
  token : Option String
  issuanceRequested : Bool
  warned : Bool
deriving DecidableEq, Repr

/-- The issuance path of ensureAIGatewayToken, deploy.ts lines 312 to
376: a POST to the user/tokens endpoint whose outcome is passed in. On
success the new token is returned; every failure is caught, a warning is
logged and null is returned (non-blocking). -/
def issueGatewayToken (issuance : Except String String) : TokenResult :=
  match issuance with
  | .ok tok => { token := some tok, issuanceRequested := true, warned := false }
  | .error _ => { token := none, issuanceRequested := true, warned := true }

/-- Embedding of ensureAIGatewayToken, deploy.ts lines 301 to 377. If the
configured token is truthy and not the placeholder literal it is reused
with no issuance request; otherwise a new token is requested. -/
def ensureAIGatewayToken (currentToken : Option String)
    (issuance : Except String String) : TokenResult :=
  match currentToken with
  | some t =>
    if t != "" && t != placeholderGatewayToken then
      { token := some t, issuanceRequested := false, warned := false }
    else issueGatewayToken issuance
  | none => issueGatewayToken issuance

/-- Outcome of ensureAIGateway. The method catches every error it meets,
so there is no fatal constructor: each failure path ends in a logged
warning or a skip, mirroring the non-blocking design of deploy.ts lines
197 to 259. -/
inductive GwOutcome
  | skippedNoEnv
  | alreadyExists
  | checkFailedWarn
  | skippedNameTooLong
  | created (authEnabled : Bool)
  | createFailedWarn
deriving DecidableEq, Repr

/-- Result of ensureAIGateway: the outcome, whether an aiGateway.create
call was issued, and whether a token-issuance request was made. -/
structure GwResult where
  outcome : GwOutcome
  createCalled : Bool
  issuanceRequested : Bool
deriving DecidableEq, Repr

/-- Embedding of ensureAIGateway, deploy.ts lines 197 to 259. Inputs: the
CLOUDFLARE_AI_GATEWAY variable, the configured gateway token and the
result of a token-issuance request (consumed by ensureAIGatewayToken),
the result of the aiGateway.get call, and the result of the
aiGateway.create call. checkTokenPermissions only logs and is elided.
The gateway name length guard (64 characters, line 232) sits after the
existence check and before the create call. The outer catch turns any
create failure into a warning, never a fatal error. -/
def ensureAIGateway (gatewayEnv : Option String)
    (currentToken : Option String) (issuance : Except String String)
    (fetchRes : Except FetchError Unit)
    (createRes : Except String Unit) : GwResult :=
  if isFalsyStr gatewayEnv then
    { outcome := .skippedNoEnv, createCalled := false, issuanceRequested := false }
  else
    match gatewayEnv with
    | none =>
      { outcome := .skippedNoEnv, createCalled := false, issuanceRequested := false }
    | some name =>
      let tok := ensureAIGatewayToken currentToken issuance
      match fetchRes with
      | .ok _ =>
        { outcome := .alreadyExists, createCalled := false
          issuanceRequested := tok.issuanceRequested }
      | .error e =>
        if gwCheckFailNonNotFound e then
          { outcome := .checkFailedWarn, createCalled := false
            issuanceRequested := tok.issuanceRequested }
        else if 64 < name.length then
          { outcome := .skippedNameTooLong, createCalled := false
            issuanceRequested := tok.issuanceRequested }
        else
          match createRes with
          | .ok _ =>
            { outcome := .created tok.token.isSome, createCalled := true
              issuanceRequested := tok.issuanceRequested }
          | .error _ =>
            { outcome := .createFailedWarn, createCalled := true
              issuanceRequested := tok.issuanceRequested }

/-- Application of a single text edit, exactly as jsonc-parser applyEdits
performs it for the one edit produced here: the characters in the range
[offset, offset + len) are replaced by newText and nothing else moves. -/
def applyEdit (s : Chars) (offset len : Nat) (newText : Chars) : Chars :=
  s.take offset ++ newText ++ s.drop (offset + len)

/-- Decimal rendering of an integer, as jsonc-parser renders the numeric
replacement value into the edit text. -/
def intRepr (n : Int) : Chars :=
  match n with
  | .ofNat m => Nat.toDigits 10 m
  | .negSucc m => '-' :: Nat.toDigits 10 (m + 1)

/-- One entry of the containers array of wrangler.jsonc, restricted to
the fields deploy.ts reads: class_name (the discriminator of the lookup)
and max_instances (the patched value). -/
structure ContainerEntry where
  class_name : String
  max_instances : Int
deriving DecidableEq, Repr

/-- The discriminating class name searched for in deploy.ts line 499. -/
def sandboxClassName : String := "UserAppSandboxService"

/-- Outcome of updateContainerConfiguration. The first two constructors
are the early guards that return before any file access; the two warn
constructors log a warning and return after the file has been read but
before anything is written; updated records the old and new values. -/
inductive UCCOutcome
  | skippedUnset
  | skippedInvalidValue
  | warnNoContainers
  | warnNoSandboxContainer
  | updated (oldVal : Int) (newVal : Int)
deriving DecidableEq, Repr

/-- Result of updateContainerConfiguration: the outcome plus the file
effects — whether wrangler.jsonc was read, whether it was written, and
the content of the file after the call. -/
structure UCCResult where
  outcome : UCCOutcome
  readFile : Bool
  wroteFile : Bool
  newContent : Chars
deriving DecidableEq, Repr

/-- Embedding of updateContainerConfiguration, deploy.ts lines 469 to
536. Inputs: the MAX_SANDBOX_INSTANCES variable, the current text of
wrangler.jsonc, the containers field of its parse (none when absent or
not an array), the byte range of the current max_instances value of the
targeted entry, and whether the file read succeeds. The range input
models the edit location computed by the external jsonc-parser modify
call (modelled from the spec contract for the ConfigPatcher: locate the
current byte-range of the addressed field value and replace exactly it;
the library itself is not part of this repository). A failing file read
is re-thrown by the catch block as a fatal DeploymentError; every other
path returns normally. -/
def updateContainerConfiguration (maxEnv : Option String)
    (content : Chars) (containersField : Option (List ContainerEntry))
    (valueRange : Nat × Nat) (readOk : Bool) : Except String UCCResult :=
  match maxEnv with
  | none =>
    .ok { outcome := .skippedUnset, readFile := false, wroteFile := false
          newContent := content }
  | some s =>
    if s == "" then
      .ok { outcome := .skippedUnset, readFile := false, wroteFile := false
            newContent := content }
    else
      match jsParseInt10 s with
      | none =>
        .ok { outcome := .skippedInvalidValue, readFile := false
              wroteFile := false, newContent := content }
      | some n =>
        if n ≤ 0 then
          .ok { outcome := .skippedInvalidValue, readFile := false
                wroteFile := false, newContent := content }
        else if !readOk then
          .error "Failed to update container configuration"
        else
          match containersField with
          | none =>
            .ok { outcome := .warnNoContainers, readFile := true
                  wroteFile := false, newContent := content }
          | some containers =>
            match containers.find? (fun c => c.class_name == sandboxClassName) with
            | none =>
              .ok { outcome := .warnNoSandboxContainer, readFile := true
                    wroteFile := false, newContent := content }
            | some entry =>
              .ok { outcome := .updated entry.max_instances n
                    readFile := true, wroteFile := true
                    newContent := applyEdit content valueRange.1 valueRange.2 (intRepr n) }

/-- The required environment variable names of deploy.ts lines 93 to 97. -/
def requiredVars : List String :=
  ["CLOUDFLARE_API_TOKEN", "CLOUDFLARE_ACCOUNT_ID", "TEMPLATES_REPOSITORY"]

/-- The missing-variable computation of deploy.ts line 99: requiredVars
filtered by JavaScript falsiness of the environment value, which keeps
both unset names and names bound to the empty string. -/
def envMissingVars (env : String → Option String) : List String :=
  requiredVars.filter (fun v => isFalsyStr (env v))

/-- The message of the single DeploymentError thrown by
validateEnvironment, deploy.ts lines 102 to 105, rendered from the full
list of missing names. -/
def missingVarsMessage (missing : List String) : String :=
  "Missing required environment variables: " ++ String.intercalate ", " missing
    ++ "\nPlease ensure all required secrets are configured in your deployment."

/-- Embedding of validateEnvironment, deploy.ts lines 92 to 108: succeed
when no required variable is missing, otherwise throw one fatal error
carrying every missing name (the thrown message is missingVarsMessage of
this list). -/
def validateEnvironment (env : String → Option String) : Except (List String) Unit :=
  let missing := envMissingVars env
  if missing.isEmpty then .ok () else .error missing

/-- Observable actions of the CloudflareDeploymentManager constructor,
deploy.ts lines 80 to 87, in order: validateEnvironment, then
parseWranglerConfig (a filesystem read), then SDK client construction.
No network call happens during construction. -/
inductive StartupEvent
  | envValidation
  | configFileRead
  | cloudflareClientInit
deriving DecidableEq, Repr

/-- Embedding of the constructor sequencing: validation runs first and a
validation failure throws before the configuration file is read. -/
def managerStartup (env : String → Option String) :
    List StartupEvent × Option (List String) :=
  match validateEnvironment env with
  | .error missing => ([.envValidation], some missing)
  | .ok _ => ([.envValidation, .configFileRead, .cloudflareClientInit], none)

/-- Result of a non-blocking step after its surrounding catch block:
either the normal outcome or a logged warning message. There is no
fatal constructor because the catch swallows every error. -/
inductive StepAfterCatch (α : Type)
  | ok (a : α)
  | warned (msg : String)
deriving DecidableEq, Repr

/-- The catch block shared by the non-blocking steps: a thrown error
becomes a logged warning and execution continues. -/
def wrapNonBlocking {α : Type} (r : Except String α) : StepAfterCatch α :=
  match r with
  | .ok a => .ok a
  | .error m => .warned m

/-- Successful outcomes of deployTemplates. -/
inductive TplOutcome
  | deployed
  | skippedNoScript
deriving DecidableEq, Repr

/-- External results consumed by deployTemplates: whether the templates
checkout already exists, whether git clone succeeds, whether git pull
succeeds, whether the TEMPLATES_BUCKET binding is configured, whether
deploy_templates.sh exists, and whether running it succeeds. -/
structure TplInput where
  alreadyCloned : Bool
  cloneOk : Bool
  pullOk : Bool
  bucketConfigured : Bool
  scriptExists : Bool
  runScriptOk : Bool
deriving DecidableEq, Repr

/-- The try body of deployTemplates, deploy.ts lines 395 to 458. A pull
failure has its own inner catch (warn and keep the existing checkout),
so it never reaches the outer catch; a clone failure, a missing bucket
binding and a script failure are thrown; a missing script returns
normally after a warning. -/
def deployTemplatesBody (i : TplInput) : Except String TplOutcome :=
  if !i.alreadyCloned && !i.cloneOk then
    .error "git clone failed"
  else if !i.bucketConfigured then
    .error "TEMPLATES_BUCKET not found in wrangler.jsonc r2_buckets configuration"
  else if !i.scriptExists then
    .ok .skippedNoScript
  else if !i.runScriptOk then
    .error "deploy_templates.sh failed"
  else
    .ok .deployed

/-- Embedding of deployTemplates, deploy.ts lines 389 to 464: the body
wrapped in the catch of lines 459 to 463, which logs a warning and
continues with the main deployment. -/
def deployTemplates (i : TplInput) : StepAfterCatch TplOutcome :=
  wrapNonBlocking (deployTemplatesBody i)

/-- Successful outcomes of updateSecrets. -/
inductive SecOutcome
  | updated
  | skippedNoFile
deriving DecidableEq, Repr

/-- External results consumed by updateSecrets: whether .prod.vars
already exists, whether createProdVarsFile succeeds in writing it,
whether the file exists after the creation attempt, and whether the
wrangler secret bulk invocation succeeds. -/
structure SecInput where
  prodVarsExists : Bool
  createFileOk : Bool
  existsAfterCreate : Bool
  execOk : Bool
deriving DecidableEq, Repr

/-- The try body of updateSecrets, deploy.ts lines 655 to 675. When the
secrets file is absent it is generated by createProdVarsFile, whose
write failure throws a DeploymentError (fatal only within this step);
a file still absent after creation warns and returns; a failing
wrangler secret bulk invocation throws. -/
def updateSecretsBody (i : SecInput) : Except String SecOutcome :=
  if i.prodVarsExists then
    if i.execOk then .ok .updated else .error "wrangler secret bulk failed"
  else if !i.createFileOk then
    .error "Failed to create .prod.vars file"
  else if !i.existsAfterCreate then
    .ok .skippedNoFile
  else if i.execOk then
    .ok .updated
  else
    .error "wrangler secret bulk failed"

/-- Embedding of updateSecrets, deploy.ts lines 652 to 681: the body
wrapped in the catch of lines 676 to 680, which logs a warning and does
not fail the deployment. -/
def updateSecrets (i : SecInput) : StepAfterCatch SecOutcome :=
  wrapNonBlocking (updateSecretsBody i)

/-- The steps a deployment run can start. The constructors for the build,
namespace ensure, template and gateway steps exist so that their absence
from every trace is expressible: their invocations in deploy() are
commented out in the source. -/
inductive DeployStep
  | ensureDispatchNamespaceStep
  | deployTemplatesStep
  | buildProjectStep
  | ensureAIGatewayStep
  | updateContainerConfigStep
  | wranglerDeployStep
  | updateSecretsStep
deriving DecidableEq, Repr

/-- A deployment run: the steps started, in order, and whether the run
reached the final success message. -/
structure DeployRun where
  steps : List DeployStep
  success : Bool
deriving DecidableEq, Repr

/-- Embedding of deploy(), deploy.ts lines 686 to 758. The executed
sequence is: updateContainerConfiguration (step 6), wranglerDeploy
(step 7), updateSecrets (step 8). The first two can throw, which the
outer catch turns into a failed run that starts no further step;
updateSecrets returns a StepAfterCatch and never throws, so the run
result does not depend on its outcome — the secretsWarn flag records
whether that step warned and is deliberately unused on the right-hand
side, mirroring the source, which branches on nothing after step 8. -/
def deployRun (uccFatal : Bool) (wdFatal : Bool) (_secretsWarn : Bool) : DeployRun :=
  if uccFatal then
    { steps := [.updateContainerConfigStep], success := false }
  else if wdFatal then
    { steps := [.updateContainerConfigStep, .wranglerDeployStep], success := false }
  else
    { steps := [.updateContainerConfigStep, .wranglerDeployStep, .updateSecretsStep]
      success := true }

/-- Control-plane state for the idempotency analysis: which of the two
ensured resources currently exist remotely. -/
structure CPState where
  nsExists : Bool
  gwExists : Bool
deriving DecidableEq, Repr

/-- The namespace fetch against a given control-plane state: success when
the namespace exists, the honest not-found rejection otherwise. -/
def nsFetch (st : CPState) : Except FetchError Unit :=
  if st.nsExists then .ok () else .error notFoundError

/-- The gateway fetch against a given control-plane state. -/
def gwFetch (st : CPState) : Except FetchError Unit :=
  if st.gwExists then .ok () else .error notFoundError

/-- One run of the namespace ensure step against a control-plane state in
which creation succeeds: the state afterwards records the resource as
existing exactly when it existed before or a creation call was issued. -/
def runEnsureNS (nsName : Option String) (st : CPState) : CPState × NsResult :=
  let r := ensureDispatchNamespace nsName (nsFetch st) (.ok ())
  ({ st with nsExists := st.nsExists || r.createCalled }, r)

/-- One run of the gateway ensure step against a control-plane state in
which creation succeeds. -/
def runEnsureGW (env currentToken : Option String)
    (issuance : Except String String) (st : CPState) : CPState × GwResult :=
  let r := ensureAIGateway env currentToken issuance (gwFetch st) (.ok ())
  ({ st with gwExists := st.gwExists || r.createCalled }, r)

/-- A wrangler.jsonc fragment with a leading comment and the targeted
container entry, current max_instances value 10. 98 characters; the
value occupies the range [90, 92). -/
def sampleDoc : Chars :=
  "/* comment */ \x7b \x22containers\x22: [ \x7b \x22class_name\x22: \x22UserAppSandboxService\x22, \x22max_instances\x22: 10 \x7d ] \x7d".data

/-- The 90 characters of sampleDoc before the max_instances value. -/
def samplePre : Chars := sampleDoc.take 90

/-- The current value text of the max_instances field of sampleDoc. -/
def sampleOld : Chars := "10".data

/-- The characters of sampleDoc after the max_instances value. -/
def samplePost : Chars := sampleDoc.drop 92

/-- sampleDoc after the patch with override 25: only the two value
characters changed. -/
def sampleDocPatched : Chars :=
  "/* comment */ \x7b \x22containers\x22: [ \x7b \x22class_name\x22: \x22UserAppSandboxService\x22, \x22max_instances\x22: 25 \x7d ] \x7d".data

/-- A gateway name of 80 characters, over the 64-character limit. -/
def name80 : String :=
  "aaaaaaaaaaaaaaaaaaaaaaaaaaaaaaaaaaaaaaaaaaaaaaaaaaaaaaaaaaaaaaaaaaaaaaaaaaaaaaaa"

/-- A sample environment with only the API token set, used to witness the
validation theorem. -/
def envSample : String → Option String :=
  fun v => if v == "CLOUDFLARE_API_TOKEN" then some "token-value" else none

/-- Characterization of JavaScript falsiness for an optional string. -/
theorem isFalsyStr_iff (o : Option String) :
    isFalsyStr o = true ↔ (o = none ∨ o = some "") := by
  cases o with
  | none => simp [isFalsyStr]
  | some s =>
    simp only [isFalsyStr, beq_iff_eq, Option.some.injEq]
    constructor
    · intro h; exact Or.inr h
    · intro h; cases h with
      | inl h => exact absurd h (by simp)
      | inr h => exact h

/-- C1: the claim states that a fetch error whose status is not 404 and
whose message is absent is never silently treated as not-found. The code
violates this: with status 500 and no message the optional chain
error?.message?.indexOf(\x27not found\x27) evaluates to undefined, and
undefined === -1 is false, so the error is not re-thrown and a creation
call is issued. The second conjunct shows the contrast: the same status
with a present non-matching message is propagated fatally with no
creation call. -/
theorem ensureDispatchNamespace_misclassifies_absent_message :
    (ensureDispatchNamespace (some "orange-build")
        (.error { status := some 500, message := none }) (.ok ())
      = { outcome := .ok .created, createCalled := true })
  ∧ (ensureDispatchNamespace (some "orange-build")
        (.error { status := some 500, message := some "Internal Server Error" }) (.ok ())
      = { outcome := .error "Failed to ensure dispatch namespace: orange-build"
          createCalled := false }) := by
  constructor
  · rfl
  · rfl

/-- C2 counterexample: in the successful deployment run the remote deploy
step is executed but the build step is not — deploy() never invokes
buildProject (the invocation is commented out in the source), so the
claim that the build step is executed and completes before the remote
deploy step is false. -/
theorem deployRun_executes_no_build_step :
    (deployRun false false false).steps
      = [.updateContainerConfigStep, .wranglerDeployStep, .updateSecretsStep]
  ∧ DeployStep.buildProjectStep ∉ (deployRun false false false).steps
  ∧ DeployStep.wranglerDeployStep ∈ (deployRun false false false).steps := by
  refine ⟨rfl, ?_, ?_⟩ <;> decide

/-- C2 amended: in every deployment run the started steps form a prefix
of container-configuration update, then remote deploy, then secret
synchronization — so the remote deploy step completes before secret
synchronization begins — and the build step is never executed. -/
theorem deployRun_step_ordering (u w s : Bool) :
    (deployRun u w s).steps
      <+: [DeployStep.updateContainerConfigStep, .wranglerDeployStep, .updateSecretsStep]
  ∧ DeployStep.buildProjectStep ∉ (deployRun u w s).steps
  ∧ (DeployStep.updateSecretsStep ∈ (deployRun u w s).steps →
      (deployRun u w s).steps
        = [DeployStep.updateContainerConfigStep, .wranglerDeployStep, .updateSecretsStep]) := by
  cases u <;> cases w <;> cases s <;> decide

/-- Witness for the amended ordering theorem at the successful run. -/
theorem deployRun_step_ordering_witness :
    DeployStep.updateSecretsStep ∈ (deployRun false false true).steps
  ∧ (deployRun false false true).steps
      = [DeployStep.updateContainerConfigStep, .wranglerDeployStep, .updateSecretsStep] :=
  ⟨by decide, (deployRun_step_ordering false false true).2.2 (by decide)⟩

/-- C5: ensuring a resource that already exists is a no-op — a successful
fetch never leads to a creation call, for the dispatch namespace and for
the AI gateway — and running an ensure step a second time against the
control-plane state left by the first run issues no creation call; the
second namespace run reports the namespace as already existing. -/
theorem ensure_steps_idempotent (st : CPState) (nsName : Option String)
    (env ct : Option String) (iss : Except String String)
    (createNs : Except FetchError Unit) (createGw : Except String Unit)
    (ns : String) :
    ((ensureDispatchNamespace nsName (.ok ()) createNs).createCalled = false)
  ∧ ((ensureAIGateway env ct iss (.ok ()) createGw).createCalled = false)
  ∧ ((runEnsureNS nsName (runEnsureNS nsName st).1).2.createCalled = false)
  ∧ ((runEnsureGW env ct iss (runEnsureGW env ct iss st).1).2.createCalled = false)
  ∧ ((runEnsureNS (some ns) (runEnsureNS (some ns) st).1).2.outcome = .ok .alreadyExists) := by
  obtain ⟨nsE, gwE⟩ := st
  refine ⟨?_, ?_, ?_, ?_, ?_⟩
  · cases nsName <;> rfl
  · cases env with
    | none => rfl
    | some name =>
      unfold ensureAIGateway
      split
      · rfl
      · rfl
  · cases nsName with
    | none => cases nsE <;> rfl
    | some n => cases nsE <;> rfl
  · cases env with
    | none => cases gwE <;> rfl
    | some name =>
      by_cases hf : (name == "") = true
      · simp only [runEnsureGW, ensureAIGateway, isFalsyStr, hf]
        cases gwE <;> rfl
      · cases gwE with
        | true =>
          simp only [runEnsureGW, ensureAIGateway, isFalsyStr, hf]
          simp [gwFetch]
        | false =>
          by_cases hl : 64 < name.length
          · simp only [runEnsureGW, ensureAIGateway, isFalsyStr, hf]
            simp [gwFetch, gwCheckFailNonNotFound, notFoundError, hl]
          · simp only [runEnsureGW, ensureAIGateway, isFalsyStr, hf]
            simp [gwFetch, gwCheckFailNonNotFound, notFoundError, hl]
  · cases nsE <;> rfl

/-- C6: environment validation succeeds exactly when every required input
resolves to a non-empty value; otherwise it throws a single fatal error
carrying exactly the missing names (all of them, in declaration order,
rendered by missingVarsMessage), and the constructor then performs no
configuration-file read. -/
theorem validateEnvironment_complete (env : String → Option String) :
    (validateEnvironment env = .ok () ↔
      ∀ v ∈ requiredVars, ∃ s, env v = some s ∧ s ≠ "")
  ∧ (∀ missing, validateEnvironment env = .error missing →
      ∀ v, v ∈ missing ↔ (v ∈ requiredVars ∧ (env v = none ∨ env v = some "")))
  ∧ (∀ missing, validateEnvironment env = .error missing →
      managerStartup env = ([.envValidation], some missing)) := by
  have hchar : ∀ v, isFalsyStr (env v) = true ↔ (env v = none ∨ env v = some "") :=
    fun v => isFalsyStr_iff (env v)
  refine ⟨?_, ?_, ?_⟩
  · constructor
    · intro h v hv
      have hmiss : envMissingVars env = [] := by
        by_contra hne
        simp only [validateEnvironment, List.isEmpty_iff] at h
        split at h
        · exact hne (by assumption)
        · exact Except.noConfusion h
      have : ∀ a ∈ requiredVars, ¬(isFalsyStr (env a) = true) := by
        rw [← List.filter_eq_nil_iff]
        exact hmiss
      have hv2 := this v hv
      rw [hchar v] at hv2
      push_neg at hv2
      cases he : env v with
      | none => exact absurd he hv2.1
      | some s =>
        refine ⟨s, rfl, ?_⟩
        intro hs
        exact hv2.2 (by rw [he, hs])
    · intro h
      have hmiss : envMissingVars env = [] := by
        rw [envMissingVars, List.filter_eq_nil_iff]
        intro v hv
        obtain ⟨s, hs, hne⟩ := h v hv
        rw [hchar v]
        push_neg
        exact ⟨by rw [hs]; exact fun hc => Option.noConfusion hc, by
          intro hc
          rw [hs] at hc
          exact hne (Option.some.injEq _ _ ▸ hc)⟩
      simp [validateEnvironment, hmiss]
  · intro missing hmiss v
    have : missing = envMissingVars env := by
      simp only [validateEnvironment] at hmiss
      split at hmiss
      · exact Except.noConfusion hmiss
      · cases hmiss
        rfl
    rw [this, envMissingVars, List.mem_filter, hchar v]
  · intro missing hmiss
    simp [managerStartup, hmiss]

/-- Witness for the validation theorem: with only the API token set, the
validation fails with exactly the other two required names, the account
identifier is listed, and the constructor stops before the configuration
file read. -/
theorem validateEnvironment_complete_witness :
    validateEnvironment envSample = .error ["CLOUDFLARE_ACCOUNT_ID", "TEMPLATES_REPOSITORY"]
  ∧ ("CLOUDFLARE_ACCOUNT_ID" ∈ ["CLOUDFLARE_ACCOUNT_ID", "TEMPLATES_REPOSITORY"] ↔
      ("CLOUDFLARE_ACCOUNT_ID" ∈ requiredVars ∧
        (envSample "CLOUDFLARE_ACCOUNT_ID" = none ∨ envSample "CLOUDFLARE_ACCOUNT_ID" = some "")))
  ∧ managerStartup envSample = ([.envValidation], some ["CLOUDFLARE_ACCOUNT_ID", "TEMPLATES_REPOSITORY"]) :=
  ⟨rfl,
   (validateEnvironment_complete envSample).2.1 _ rfl "CLOUDFLARE_ACCOUNT_ID",
   (validateEnvironment_complete envSample).2.2 _ rfl⟩

/-- C9: a failure inside a non-blocking step is converted by its catch
block into a logged warning — for the template sync step and for the
secret synchronization step, including a failure of the secrets-file
generation — the deployment run result does not depend on the secret
step outcome at all, and whenever the secret synchronization step is
reached the run succeeds. -/
theorem nonblocking_steps_never_fatal :
    (∀ i m, deployTemplatesBody i = .error m → deployTemplates i = .warned m)
  ∧ (∀ i m, updateSecretsBody i = .error m → updateSecrets i = .warned m)
  ∧ (∀ u w s t : Bool, deployRun u w s = deployRun u w t)
  ∧ (∀ u w s : Bool, DeployStep.updateSecretsStep ∈ (deployRun u w s).steps →
      (deployRun u w s).success = true) := by
  refine ⟨?_, ?_, ?_, ?_⟩
  · intro i m h
    simp [deployTemplates, wrapNonBlocking, h]
  · intro i m h
    simp [updateSecrets, wrapNonBlocking, h]
  · intro u w s t
    rfl
  · intro u w s
    cases u <;> cases w <;> cases s <;> decide

/-- Witness for the non-blocking theorem: a missing bucket binding makes
the template body throw and the step warn; a failing bulk upload and a
failing secrets-file generation each make the secret step warn; the
successful run is unchanged by the secret step outcome. -/
theorem nonblocking_steps_never_fatal_witness :
    deployTemplates
        { alreadyCloned := true, cloneOk := true, pullOk := true
          bucketConfigured := false, scriptExists := true, runScriptOk := true }
      = .warned "TEMPLATES_BUCKET not found in wrangler.jsonc r2_buckets configuration"
  ∧ updateSecrets
        { prodVarsExists := true, createFileOk := true, existsAfterCreate := true, execOk := false }
      = .warned "wrangler secret bulk failed"
  ∧ updateSecrets
        { prodVarsExists := false, createFileOk := false, existsAfterCreate := false, execOk := true }
      = .warned "Failed to create .prod.vars file"
  ∧ deployRun false false true = deployRun false false false :=
  ⟨nonblocking_steps_never_fatal.1 _ _ rfl,
   nonblocking_steps_never_fatal.2.1 _ _ rfl,
   nonblocking_steps_never_fatal.2.1 _ _ rfl,
   nonblocking_steps_never_fatal.2.2.1 false false true false⟩

/-- C3 counterexample: with a valid override, a document whose parse has
no containers array makes updateContainerConfiguration log a warning and
return normally with the file untouched — it does not fail fatally; the
same holds when no entry carries the discriminating class name. -/
theorem updateContainerConfiguration_missing_target_not_fatal :
    (updateContainerConfiguration (some "25") sampleDoc none (90, 2) true
      = .ok { outcome := .warnNoContainers, readFile := true, wroteFile := false
              newContent := sampleDoc })
  ∧ (updateContainerConfiguration (some "25") sampleDoc
        (some [{ class_name := "OtherService", max_instances := 3 }]) (90, 2) true
      = .ok { outcome := .warnNoSandboxContainer, readFile := true, wroteFile := false
              newContent := sampleDoc }) := by
  constructor <;> rfl

/-- C3 amended: when the containers array is absent, or no entry carries
the discriminating class name, the operation logs a warning and returns
normally — never a fatal error, never a write, never an implicit
creation of the field: the file content is unchanged. -/
theorem updateContainerConfiguration_missing_target_warns (s : String) (n : Int)
    (content : Chars) (containersField : Option (List ContainerEntry))
    (valueRange : Nat × Nat)
    (hp : jsParseInt10 s = some n) (hn : 0 < n)
    (hmiss : containersField = none ∨
      ∃ cs, containersField = some cs ∧
        cs.find? (fun c => c.class_name == sandboxClassName) = none) :
    (updateContainerConfiguration (some s) content containersField valueRange true
      = .ok { outcome := .warnNoContainers, readFile := true, wroteFile := false
              newContent := content })
  ∨ (updateContainerConfiguration (some s) content containersField valueRange true
      = .ok { outcome := .warnNoSandboxContainer, readFile := true, wroteFile := false
              newContent := content }) := by
  have hs : (s == "") = false := by
    rw [beq_eq_false_iff_ne]
    intro hc
    rw [hc] at hp
    exact Option.noConfusion hp
  have hn2 : ¬ n ≤ 0 := by omega
  cases hmiss with
  | inl hnone =>
    subst hnone
    left
    simp [updateContainerConfiguration, hs, hp, hn2]
  | inr hsome =>
    obtain ⟨cs, hcs, hfind⟩ := hsome
    subst hcs
    right
    simp [updateContainerConfiguration, hs, hp, hn2, hfind]

/-- Witness for the amended missing-target theorem: the sample document
with the containers array absent from the parse. -/
theorem updateContainerConfiguration_missing_target_warns_witness :
    jsParseInt10 "25" = some 25
  ∧ ((updateContainerConfiguration (some "25") sampleDoc none (90, 2) true
      = .ok { outcome := .warnNoContainers, readFile := true, wroteFile := false
              newContent := sampleDoc })
    ∨ (updateContainerConfiguration (some "25") sampleDoc none (90, 2) true
      = .ok { outcome := .warnNoSandboxContainer, readFile := true, wroteFile := false
              newContent := sampleDoc })) :=
  ⟨by decide,
   updateContainerConfiguration_missing_target_warns "25" 25 sampleDoc none (90, 2)
     (by decide) (by decide) (Or.inl rfl)⟩

/-- C10: when the MAX_SANDBOX_INSTANCES override is unset (or empty),
does not parse to a number, or is not strictly positive, the container
configuration update returns normally without reading or writing the
configuration file, leaving its content identical. -/
theorem updateContainerConfiguration_invalid_override_no_file_access
    (maxEnv : Option String) (content : Chars)
    (containersField : Option (List ContainerEntry)) (valueRange : Nat × Nat)
    (readOk : Bool)
    (h : maxEnv = none ∨ ∃ s, maxEnv = some s ∧
        (s = "" ∨ jsParseInt10 s = none ∨ ∃ n, jsParseInt10 s = some n ∧ n ≤ 0)) :
    (updateContainerConfiguration maxEnv content containersField valueRange readOk
      = .ok { outcome := .skippedUnset, readFile := false, wroteFile := false
              newContent := content })
  ∨ (updateContainerConfiguration maxEnv content containersField valueRange readOk
      = .ok { outcome := .skippedInvalidValue, readFile := false, wroteFile := false
              newContent := content }) := by
  cases h with
  | inl hnone =>
    subst hnone
    left
    rfl
  | inr hsome =>
    obtain ⟨s, hmax, hcase⟩ := hsome
    subst hmax
    by_cases hs : s = ""
    · subst hs
      left
      rfl
    · have hsb : (s == "") = false := by rw [beq_eq_false_iff_ne]; exact hs
      cases hcase with
      | inl h1 => exact absurd h1 hs
      | inr h2 =>
        cases h2 with
        | inl hnan =>
          right
          simp [updateContainerConfiguration, hsb, hnan]
        | inr hpos =>
          obtain ⟨n, hpn, hle⟩ := hpos
          right
          simp [updateContainerConfiguration, hsb, hpn, hle]

/-- Witness for the invalid-override theorem: a non-numeric value. -/
theorem updateContainerConfiguration_invalid_override_witness :
    jsParseInt10 "abc" = none
  ∧ ((updateContainerConfiguration (some "abc") sampleDoc
        (some [{ class_name := sandboxClassName, max_instances := 10 }]) (90, 2) true
      = .ok { outcome := .skippedUnset, readFile := false, wroteFile := false
              newContent := sampleDoc })
    ∨ (updateContainerConfiguration (some "abc") sampleDoc
        (some [{ class_name := sandboxClassName, max_instances := 10 }]) (90, 2) true
      = .ok { outcome := .skippedInvalidValue, readFile := false, wroteFile := false
              newContent := sampleDoc })) :=
  ⟨by decide,
   updateContainerConfiguration_invalid_override_no_file_access (some "abc") sampleDoc
     (some [{ class_name := sandboxClassName, max_instances := 10 }]) (90, 2) true
     (Or.inr ⟨"abc", rfl, Or.inr (Or.inl (by decide))⟩)⟩

/-- The frame property of the single-range edit: replacing exactly the
range occupied by the old value text rebuilds the document around the
new value text, leaving every character outside the range in place. -/
theorem applyEdit_frame (pre oldText post newText : Chars) :
    applyEdit (pre ++ oldText ++ post) pre.length oldText.length newText
      = pre ++ newText ++ post := by
  have h1 : (pre ++ oldText ++ post).take pre.length = pre := by
    rw [List.append_assoc]
    exact List.take_left pre (oldText ++ post)
  have h2 : (pre ++ oldText ++ post).drop (pre.length + oldText.length) = post := by
    rw [← List.length_append]
    exact List.drop_left (pre ++ oldText) post
  rw [applyEdit, h1, h2, List.append_assoc]

/-- C4: for any configuration document text decomposing around the
current max_instances value of the targeted container entry, applying
the patch with a valid positive override replaces exactly the value
characters: the result is the same document with the new decimal value
in that range and every other character — comments, whitespace, field
order — identical. -/
theorem updateContainerConfiguration_patch_locality (s : String) (n : Int)
    (pre oldText post : Chars) (containers : List ContainerEntry)
    (entry : ContainerEntry)
    (hp : jsParseInt10 s = some n) (hn : 0 < n)
    (hfind : containers.find? (fun c => c.class_name == sandboxClassName) = some entry) :
    updateContainerConfiguration (some s) (pre ++ oldText ++ post)
        (some containers) (pre.length, oldText.length) true
      = .ok { outcome := .updated entry.max_instances n
              readFile := true, wroteFile := true
              newContent := pre ++ intRepr n ++ post } := by
  have hs : (s == "") = false := by
    rw [beq_eq_false_iff_ne]
    intro hc
    rw [hc] at hp
    exact Option.noConfusion hp
  have hn2 : ¬ n ≤ 0 := by omega
  simp [updateContainerConfiguration, hs, hp, hn2, hfind]
  rw [← List.append_assoc, ← List.append_assoc]
  exact applyEdit_frame pre oldText post (intRepr n)

set_option maxRecDepth 8000 in
/-- Witness for the patch-locality theorem: the sample document with the
override 25 yields exactly the sample document with the value replaced
by 25 and nothing else changed, comment included. -/
theorem updateContainerConfiguration_patch_locality_witness :
    samplePre ++ sampleOld ++ samplePost = sampleDoc
  ∧ jsParseInt10 "25" = some 25
  ∧ samplePre ++ intRepr 25 ++ samplePost = sampleDocPatched
  ∧ updateContainerConfiguration (some "25") (samplePre ++ sampleOld ++ samplePost)
        (some [{ class_name := sandboxClassName, max_instances := 10 }])
        (samplePre.length, sampleOld.length) true
      = .ok { outcome := .updated 10 25, readFile := true, wroteFile := true
              newContent := samplePre ++ intRepr 25 ++ samplePost } :=
  ⟨by decide, by decide, by decide,
   updateContainerConfiguration_patch_locality "25" 25 samplePre sampleOld samplePost
     [{ class_name := sandboxClassName, max_instances := 10 }]
     { class_name := sandboxClassName, max_instances := 10 }
     (by decide) (by decide) (by decide)⟩

/-- C7 counterexample: with an 80-character gateway name whose existence
fetch succeeds, the gateway-ensure step reports the gateway as already
existing and is not skipped with a warning, so the claim that every
over-limit name makes the step skip with a warning is false; no creation
call is issued on this path either. -/
theorem gateway_over_limit_name_not_always_skipped :
    64 < name80.length
  ∧ ensureAIGateway (some name80) none (.error "issuance failed") (.ok ()) (.ok ())
      = { outcome := .alreadyExists, createCalled := false, issuanceRequested := true }
  ∧ GwOutcome.alreadyExists ≠ GwOutcome.skippedNameTooLong
  ∧ GwOutcome.alreadyExists ≠ GwOutcome.checkFailedWarn := by
  refine ⟨by decide, rfl, by decide, by decide⟩

/-- C7 amended: for every gateway name longer than 64 characters no
gateway creation call is ever issued and the step never ends fatally
(every outcome is a success, a skip or a logged warning); whenever the
existence fetch does not report the gateway as already existing, the
step ends skipped or warned — the over-limit skip happening before the
creation call. -/
theorem gateway_over_limit_name_never_creates (name : String)
    (ct : Option String) (iss : Except String String)
    (fetchRes : Except FetchError Unit) (createRes : Except String Unit)
    (hlen : 64 < name.length) :
    ((ensureAIGateway (some name) ct iss fetchRes createRes).createCalled = false)
  ∧ (∀ e, fetchRes = .error e →
      (ensureAIGateway (some name) ct iss fetchRes createRes).outcome = .checkFailedWarn
    ∨ (ensureAIGateway (some name) ct iss fetchRes createRes).outcome = .skippedNameTooLong) := by
  have hne : (name == "") = false := by
    rw [beq_eq_false_iff_ne]
    intro hc
    rw [hc] at hlen
    simp [String.length] at hlen
  cases fetchRes with
  | ok u =>
    refine ⟨?_, ?_⟩
    · simp [ensureAIGateway, isFalsyStr, hne]
    · intro e he
      exact Except.noConfusion he
  | error e =>
    by_cases hc : gwCheckFailNonNotFound e = true
    · refine ⟨?_, ?_⟩
      · simp [ensureAIGateway, isFalsyStr, hne, hc]
      · intro e2 he2
        left
        simp [ensureAIGateway, isFalsyStr, hne, hc]
    · refine ⟨?_, ?_⟩
      · simp [ensureAIGateway, isFalsyStr, hne, hc, hlen]
      · intro e2 he2
        right
        simp [ensureAIGateway, isFalsyStr, hne, hc, hlen]

/-- Witness for the amended over-limit theorem: the 80-character name
with the honest not-found fetch. -/
theorem gateway_over_limit_name_never_creates_witness :
    64 < name80.length
  ∧ (ensureAIGateway (some name80) none (.error "issuance failed")
        (.error notFoundError) (.ok ())).createCalled = false
  ∧ ((ensureAIGateway (some name80) none (.error "issuance failed")
        (.error notFoundError) (.ok ())).outcome = .checkFailedWarn
    ∨ (ensureAIGateway (some name80) none (.error "issuance failed")
        (.error notFoundError) (.ok ())).outcome = .skippedNameTooLong) :=
  ⟨by decide,
   (gateway_over_limit_name_never_creates name80 none (.error "issuance failed")
     (.error notFoundError) (.ok ()) (by decide)).1,
   (gateway_over_limit_name_never_creates name80 none (.error "issuance failed")
     (.error notFoundError) (.ok ()) (by decide)).2 notFoundError rfl⟩

/-- C8: a configured gateway token that is non-empty and not the
placeholder literal is reused with no issuance request; and a failed
issuance is recoverable — the token step warns and returns null, and the
gateway is still created, with authentication disabled, instead of the
run aborting. -/
theorem gateway_token_reuse_and_recoverable_issuance
    (t name emsg : String) (iss : Except String String)
    (ht1 : t ≠ "") (ht2 : t ≠ placeholderGatewayToken)
    (hn1 : name ≠ "") (hn2 : name.length ≤ 64) :
    (ensureAIGatewayToken (some t) iss
      = { token := some t, issuanceRequested := false, warned := false })
  ∧ (ensureAIGatewayToken none (.error emsg)
      = { token := none, issuanceRequested := true, warned := true })
  ∧ (ensureAIGateway (some name) none (.error emsg) (.error notFoundError) (.ok ())
      = { outcome := .created false, createCalled := true, issuanceRequested := true }) := by
  have hb1 : (t != "") = true := by rw [bne_iff_ne]; exact ht1
  have hb2 : (t != placeholderGatewayToken) = true := by rw [bne_iff_ne]; exact ht2
  have hnb : (name == "") = false := by rw [beq_eq_false_iff_ne]; exact hn1
  have hl : ¬ 64 < name.length := by omega
  refine ⟨?_, rfl, ?_⟩
  · simp [ensureAIGatewayToken, hb1, hb2]
  · simp [ensureAIGateway, isFalsyStr, hnb, hl, ensureAIGatewayToken, issueGatewayToken,
      gwCheckFailNonNotFound, notFoundError]

/-- Witness for the token-reuse theorem at concrete values. -/
theorem gateway_token_reuse_witness :
    (("tok123" : String) ≠ "" ∧ ("tok123" : String) ≠ placeholderGatewayToken
      ∧ ("acme-gw" : String) ≠ "" ∧ ("acme-gw" : String).length ≤ 64)
  ∧ (ensureAIGatewayToken (some "tok123") (.ok "issued")
      = { token := some "tok123", issuanceRequested := false, warned := false })
  ∧ (ensureAIGateway (some "acme-gw") none (.error "boom") (.error notFoundError) (.ok ())
      = { outcome := .created false, createCalled := true, issuanceRequested := true }) :=
  ⟨⟨by decide, by decide, by decide, by decide⟩,
   (gateway_token_reuse_and_recoverable_issuance "tok123" "acme-gw" "boom" (.ok "issued")
     (by decide) (by decide) (by decide) (by decide)).1,
   (gateway_token_reuse_and_recoverable_issuance "tok123" "acme-gw" "boom" (.ok "issued")
     (by decide) (by decide) (by decide) (by decide)).2.2⟩
